import Mathlib

/-!
Verification of the Redis-protocol emulator (`redis_emulator.py`) for the
JuiceFS object store.  The Python functions `resp`, `parse`, `cmd_handler`
and the inner loop of `handle` are shallowly embedded over byte strings
modelled as `List Nat` (one `Nat` per byte).  Python `bytes.find`, slicing
(including negative indices), indexing, and `int()` conversion are modelled
explicitly so that the embedding follows the source line by line.
-/

namespace RedisEmu

/-- A byte string: each element is one byte of a Python `bytes` value. -/
abbrev Bytes := List Nat

/-- The bytes of `b"GET"`. -/
def bGET : Bytes := [71, 69, 84]
/-- The bytes of `b"SET"`. -/
def bSET : Bytes := [83, 69, 84]
/-- The bytes of `b"DEL"`. -/
def bDEL : Bytes := [68, 69, 76]
/-- The bytes of `b"EXISTS"`. -/
def bEXISTS : Bytes := [69, 88, 73, 83, 84, 83]
/-- The bytes of `b"STRLEN"`. -/
def bSTRLEN : Bytes := [83, 84, 82, 76, 69, 78]
/-- The bytes of `b"SCAN"`. -/
def bSCAN : Bytes := [83, 67, 65, 78]
/-- The bytes of `b"PING"`. -/
def bPING : Bytes := [80, 73, 78, 71]
/-- The bytes of `b"HELLO"`. -/
def bHELLO : Bytes := [72, 69, 76, 76, 79]
/-- The bytes of `b"CLUSTER"`. -/
def bCLUSTER : Bytes := [67, 76, 85, 83, 84, 69, 82]
/-- The bytes of `b"MATCH"`. -/
def bMATCH : Bytes := [77, 65, 84, 67, 72]
/-- The bytes of `b"COUNT"`. -/
def bCOUNT : Bytes := [67, 79, 85, 78, 84]

/-- The bytes of `b"-ERR\r\n"`, the generic protocol error reply. -/
def errReply : Bytes := [45, 69, 82, 82, 13, 10]
/-- The bytes of `b"+OK\r\n"`. -/
def okReply : Bytes := [43, 79, 75, 13, 10]
/-- The bytes of `b"+PONG\r\n"`. -/
def pongReply : Bytes := [43, 80, 79, 78, 71, 13, 10]
/-- The bytes of `b"-ERR This instance has cluster support disabled\r\n"`. -/
def clusterReply : Bytes :=
  [45, 69, 82, 82, 32, 84, 104, 105, 115, 32, 105, 110, 115, 116, 97, 110,
   99, 101, 32, 104, 97, 115, 32, 99, 108, 117, 115, 116, 101, 114, 32,
   115, 117, 112, 112, 111, 114, 116, 32, 100, 105, 115, 97, 98, 108, 101,
   100, 13, 10]

/-- The typed values serialised by `resp` (source line 18): Python `None`,
`bytes`, `int` and `list` (a Python `str` argument is first encoded to
`bytes` by the source, so it needs no constructor of its own). -/
inductive RValue where
  | null : RValue
  | bulk (b : Bytes) : RValue
  | int (n : Int) : RValue
  | arr (xs : List RValue) : RValue

/-- Digit recursion for `natToBytes`, structured on a fuel argument so that
it reduces definitionally; `fuel = n + 1` always suffices since dividing by
10 at every step needs at most one step per unit of `n`. -/
def natToBytesAux (fuel : Nat) (n : Nat) : Bytes :=
  match fuel with
  | 0 => []
  | fuel + 1 => if n < 10 then [n + 48] else natToBytesAux fuel (n / 10) ++ [n % 10 + 48]

/-- The ASCII bytes of the decimal notation of a natural number, as produced
by Python `str`/f-string formatting of a non-negative `int`. -/
def natToBytes (n : Nat) : Bytes := natToBytesAux (n + 1) n

/-- The ASCII bytes of the decimal notation of an integer (Python `str` of
an `int`, with a leading minus sign when negative). -/
def intToBytes (n : Int) : Bytes :=
  if n < 0 then 45 :: natToBytes n.natAbs else natToBytes n.toNat

mutual

/-- Embedding of `resp` (source lines 18-28): serialises a value in
RESP format.  The final `return b"-ERR\r\n"` for unknown types is
unreachable here because `RValue` covers exactly the types dispatched. -/
def resp : RValue → Bytes
  | .null => [36, 45, 49, 13, 10]
  | .bulk b => [36] ++ natToBytes b.length ++ [13, 10] ++ b ++ [13, 10]
  | .int n => [58] ++ intToBytes n ++ [13, 10]
  | .arr xs => [42] ++ natToBytes xs.length ++ [13, 10] ++ respList xs

/-- `b"".join(resp(i) for i in xs)` from source line 27. -/
def respList : List RValue → Bytes
  | [] => []
  | x :: xs => resp x ++ respList xs

end

/-- Index (counted from the head) of the first occurrence of `pat` as a
contiguous sublist, or `none`.  Helper for `pyFind`. -/
def findFrom (pat : Bytes) : Bytes → Option Nat
  | [] => none
  | b :: rest =>
    if pat.isPrefixOf (b :: rest) then some 0
    else (findFrom pat rest).map (· + 1)

/-- Python `data.find(pat, start)`: smallest index `≥ start` where `pat`
occurs, or `-1`.  A negative `start` counts from the end of `data` and is
clamped at 0, as in Python. -/
def pyFind (data pat : Bytes) (start : Int) : Int :=
  let s : Nat := if start < 0 then ((data.length : Int) + start).toNat else start.toNat
  match findFrom pat (data.drop s) with
  | none => -1
  | some i => (s : Int) + i

/-- Clamp one Python slice bound for a sequence of length `len`: negative
bounds count from the end (clamped at 0), positive bounds are clamped at
`len`. -/
def pySliceClamp (len : Nat) (i : Int) : Nat :=
  if i < 0 then ((len : Int) + i).toNat else min i.toNat len

/-- Python slice `l[a:b]` with full negative-index and clamping semantics. -/
def pySlice {α : Type} (l : List α) (a b : Int) : List α :=
  (l.take (pySliceClamp l.length b)).drop (pySliceClamp l.length a)

/-- Python indexing `l[i]`: negative indices count from the end; an
out-of-range index is `none` (an `IndexError` in the source). -/
def pyGetB (l : Bytes) (i : Int) : Option Nat :=
  if 0 ≤ i then l.get? i.toNat
  else if (l.length : Int) + i < 0 then none
  else l.get? ((l.length : Int) + i).toNat

/-- ASCII whitespace bytes stripped by Python `int()`. -/
def isWS (b : Nat) : Bool :=
  b = 32 || b = 9 || b = 10 || b = 13 || b = 11 || b = 12

/-- Strip leading and trailing ASCII whitespace. -/
def stripWS (s : Bytes) : Bytes :=
  ((s.dropWhile isWS).reverse.dropWhile isWS).reverse

/-- ASCII decimal digit test. -/
def isDigit (b : Nat) : Bool := 48 ≤ b && b ≤ 57

/-- Value of a string of ASCII decimal digits. -/
def digitsToNat (s : Bytes) : Nat := s.foldl (fun a b => 10 * a + (b - 48)) 0

/-- Python `int(s)` on a byte string: optional surrounding ASCII whitespace,
an optional sign, then one or more decimal digits; anything else raises
`ValueError`, modelled as `none`.  (Python additionally allows underscores
between digits; no input considered in this development contains one.) -/
def pyInt (s : Bytes) : Option Int :=
  let t := stripWS s
  if t = [] then none
  else if t.headD 0 = 43 then
    (if t.tail ≠ [] && t.tail.all isDigit then some ((digitsToNat t.tail : Nat) : Int) else none)
  else if t.headD 0 = 45 then
    (if t.tail ≠ [] && t.tail.all isDigit then some (-((digitsToNat t.tail : Nat) : Int)) else none)
  else if t.all isDigit then some ((digitsToNat t : Nat) : Int)
  else none

/-- The `for _ in range(count)` loop of `parse` (source lines 40-48),
with the mutable `args` and `pos` threaded explicitly.  `pos` is an `Int`
because a negative declared element length can drive it negative, exactly
as in the source; slicing, `find` and indexing then follow Python's
negative-index semantics.  A `ValueError`/`IndexError` in the body is the
`([], 0)` result of the enclosing `except` clause (source line 50). -/
def parseLoop (data : Bytes) : Nat → List Bytes → Int → List Bytes × Int
  | 0, args, pos => (args, pos)
  | k + 1, args, pos =>
    if pos ≥ (data.length : Int) then ([], 0)
    else
      match pyGetB data pos with
      | none => ([], 0)
      | some b =>
        if b ≠ 36 then ([], 0)
        else
          let dollarEnd := pyFind data [13, 10] pos
          match pyInt (pySlice data (pos + 1) dollarEnd) with
          | none => ([], 0)
          | some len =>
            let valueStart := dollarEnd + 2
            let valueEnd := valueStart + len
            if valueEnd + 2 > (data.length : Int) then ([], 0)
            else parseLoop data k (args ++ [pySlice data valueStart valueEnd]) (valueEnd + 2)

/-- Embedding of `parse` (source lines 30-50): decode one RESP array frame
from the head of `data`, returning the argument list and the number of
bytes consumed (`0` for anything not decodable right now).  `data.find`
returning `-1` flows into the subsequent slices unchecked, exactly as in
the source. -/
def parse (data : Bytes) : List Bytes × Int :=
  match data with
  | 42 :: _ =>
    let end0 := pyFind data [13, 10] 0
    match pyInt (pySlice data 1 end0) with
    | none => ([], 0)
    | some count => parseLoop data count.toNat [] (end0 + 2)
  | _ => ([], 0)

/-- The process-wide key-value table `storage` (source line 9): a Python
`dict[bytes, bytes]`, modelled as an insertion-ordered association list
whose keys are unique whenever it is built by the operations below. -/
abbrev Storage := List (Bytes × Bytes)

/-- Python `storage.get(k)` / `k in storage`: value of the first (only)
entry with key `k`. -/
def getS (st : Storage) (k : Bytes) : Option Bytes :=
  match st with
  | [] => none
  | (k', v) :: rest => if k' = k then some v else getS rest k

/-- Python `storage[k] = v`: replace the value in place if `k` is present
(keeping its position in the enumeration order), else append at the end. -/
def setKV (st : Storage) (k v : Bytes) : Storage :=
  match st with
  | [] => [(k, v)]
  | (k', v') :: rest => if k' = k then (k, v) :: rest else (k', v') :: setKV rest k v

/-- Python `storage.pop(k, None)`: the removed value (or `none`) together
with the table after removal. -/
def popKV (st : Storage) (k : Bytes) : Option Bytes × Storage :=
  match st with
  | [] => (none, [])
  | (k', v) :: rest =>
    if k' = k then (some v, rest)
    else
      let r := popKV rest k
      (r.1, (k', v) :: r.2)

/-- Python `list(storage.keys())`: the keys in insertion order. -/
def keysOf (st : Storage) : List Bytes := st.map Prod.fst

/-- The `DEL` loop (source lines 83-84): pop every named key, adding 1 to
the count only when the popped value is truthy, i.e. `some` AND non-empty
(Python's `1 if storage.pop(k, None) else 0` treats `b""` as false). -/
def delLoop (st : Storage) (ks : List Bytes) (count : Nat) : Storage × Nat :=
  match ks with
  | [] => (st, count)
  | k :: rest =>
    let r := popKV st k
    delLoop r.2 rest
      (count + (match r.1 with
                | some v => if v.isEmpty then 0 else 1
                | none => 0))

/-- Uppercase one ASCII byte (`a`-`z` to `A`-`Z`). -/
def upperByte (b : Nat) : Nat := if 97 ≤ b && b ≤ 122 then b - 32 else b

/-- Models Python `s.decode(errors='ignore').upper()` on byte strings whose
bytes are all ASCII (`< 0x80`), where `decode` is the identity; every
theorem below applies it only to such byte strings. -/
def upperAscii (s : Bytes) : Bytes := s.map upperByte

/-- Split a pattern at every `*` byte (42), keeping empty segments, as the
regex `match.replace("*", ".*")` of source line 94 does implicitly. -/
def splitOnStar : Bytes → List Bytes
  | [] => [[]]
  | b :: rest =>
    if b = 42 then [] :: splitOnStar rest
    else
      match splitOnStar rest with
      | s :: ss => (b :: s) :: ss
      | [] => [[b]]

/-- Models Python `re.match` of the regex `seg0 ++ ".*" ++ seg1 ++ ...`
against `s`, for patterns whose non-`*` bytes are ASCII regex literals
(no metacharacters) — the only patterns the theorems below use.  `re.match`
anchors at the start of `s` only; each `".*"` gap matches any bytes except
newline (10), since `.` does not match a newline; a trailing segment needs
only to be a prefix of what remains. -/
def pyReMatch : List Bytes → Bytes → Bool
  | [], _ => true
  | [seg], s => seg.isPrefixOf s
  | seg :: segs, s =>
    seg.isPrefixOf s &&
    ((List.range ((s.drop seg.length).length + 1)).any fun i =>
      (((s.drop seg.length).take i).all fun b => b != 10) &&
      pyReMatch segs ((s.drop seg.length).drop i))

/-- Bytes that the Python `re` module treats as literals (used to scope the
SCAN theorems to patterns where `pyReMatch` is faithful): printable ASCII
that is not a regex metacharacter and not `*`. -/
def isRegexLiteral (b : Nat) : Bool :=
  b < 128 && !(b ∈ [42, 46, 94, 36, 43, 63, 40, 41, 91, 93, 123, 125, 124, 92])

/-- The exceptions `cmd_handler` can raise to its caller. -/
inductive PyExn where
  | indexError : PyExn
  | valueError : PyExn
deriving DecidableEq

/-- Embedding of `cmd_handler` (source lines 75-101).  Returns the table
after the call (the source mutates the global `storage` in place) together
with either the reply bytes or the exception that propagates:

* `SET` (line 81) executes `storage[args[1]] = args[2]` as a statement
  before the conditional return, and Python evaluates `args[2]` first, so
  with fewer than 3 arguments it raises `IndexError` before writing;
  with at least 3 it stores and then always takes the `b"+OK\r\n"` branch
  (the `else b"-ERR\r\n"` of line 81 is unreachable).
* `SCAN` converts the cursor and COUNT fields with `int()` (lines 89, 91),
  which raises `ValueError` on non-numeric bytes. -/
def cmd_handler (cmd : Bytes) (args : List Bytes) (st : Storage) :
    Storage × Except PyExn Bytes :=
  if cmd = bGET then
    (st, .ok (if args.length > 1 then resp (match getS st (args.getD 1 []) with
                                           | none => .null
                                           | some v => .bulk v)
              else errReply))
  else if cmd = bSET then
    if args.length > 2 then
      (setKV st (args.getD 1 []) (args.getD 2 []), .ok okReply)
    else (st, .error .indexError)
  else if cmd = bDEL then
    let r := delLoop st (args.drop 1) 0
    (r.1, .ok (resp (.int (r.2 : Int))))
  else if cmd = bEXISTS then
    (st, .ok (resp (.int (((args.drop 1).countP fun k => (getS st k).isSome) : Int))))
  else if cmd = bSTRLEN then
    (st, .ok (if args.length > 1
              then resp (.int ((((getS st (args.getD 1 [])).getD []).length : Nat) : Int))
              else errReply))
  else if cmd = bSCAN then
    match (if args.length > 1 then pyInt (args.getD 1 []) else some 0) with
    | none => (st, .error .valueError)
    | some cursor =>
      let mtch := if args.length > 3 && upperAscii (args.getD 2 []) = bMATCH
                  then args.getD 3 [] else [42]
      match (if args.length > 5 && upperAscii (args.getD 4 []) = bCOUNT
             then pyInt (args.getD 5 []) else some 10) with
      | none => (st, .error .valueError)
      | some count =>
        let keys0 := pySlice (keysOf st) cursor (cursor + count)
        let keys := if mtch ≠ [42]
                    then keys0.filter fun k => pyReMatch (splitOnStar mtch) k
                    else keys0
        let newCursor : Int :=
          if cursor + (keys.length : Int) ≥ (st.length : Int) then 0
          else cursor + (keys.length : Int)
        (st, .ok (resp (.arr [.bulk (intToBytes newCursor), .arr (keys.map .bulk)])))
  else if cmd = bPING then (st, .ok pongReply)
  else if cmd = bHELLO then
    (st, .ok (resp (.arr [.bulk [115, 101, 114, 118, 101, 114],
                          .bulk [114, 101, 100, 105, 115],
                          .bulk [118, 101, 114, 115, 105, 111, 110],
                          .bulk [54, 46, 48, 46, 48],
                          .bulk [112, 114, 111, 116, 111], .int 3,
                          .bulk [105, 100], .int 1,
                          .bulk [109, 111, 100, 101],
                          .bulk [115, 116, 97, 110, 100, 97, 108, 111, 110, 101],
                          .bulk [114, 111, 108, 101],
                          .bulk [109, 97, 115, 116, 101, 114],
                          .bulk [109, 111, 100, 117, 108, 101, 115],
                          .arr []])))
  else if cmd = bCLUSTER then (st, .ok clusterReply)
  else (st, .ok errReply)

/-- Outcome of one pass of the inner `while buffer:` body of `handle`
(source lines 61-71). -/
inductive StepResult where
  | needMore : StepResult
  | reply (st : Storage) (response rest : Bytes) : StepResult
  | crash (st : Storage) (e : PyExn) : StepResult

/-- Embedding of one iteration of the inner loop of `handle` (source lines
62-70): parse the buffer; on zero consumed bytes, `break` (`needMore`);
otherwise drop the consumed bytes, answer `b"-ERR\r\n"` for an empty
argument list, and otherwise dispatch via `cmd_handler` on the uppercased
first argument.  An exception from `cmd_handler` propagates out of the
loop and closes the connection (`crash`). -/
def handleStep (st : Storage) (buffer : Bytes) : StepResult :=
  let pr := parse buffer
  if pr.2 = 0 then .needMore
  else
    let buffer' := pySlice buffer pr.2 (buffer.length : Int)
    if pr.1.isEmpty then .reply st errReply buffer'
    else
      match cmd_handler (upperAscii (pr.1.headD [])) pr.1 st with
      | (st', .ok r) => .reply st' r buffer'
      | (st', .error e) => .crash st' e

/-- The window of keys SCAN slices out before any MATCH filtering, in
standard list vocabulary: `list(storage.keys())[cursor:cursor+count]` for a
non-negative cursor and count. -/
def scanWindow (st : Storage) (c n : Nat) : List Bytes :=
  ((keysOf st).take (c + n)).drop c

/-- The keys SCAN replies when a MATCH pattern is given: the window
filtered by the translated pattern. -/
def scanFiltered (st : Storage) (c n : Nat) (pat : Bytes) : List Bytes :=
  (scanWindow st c n).filter fun k => pyReMatch (splitOnStar pat) k

theorem getS_setKV_self (st : Storage) (k v : Bytes) :
    getS (setKV st k v) k = some v := by
  induction st with
  | nil => simp [setKV, getS]
  | cons hd tl ih =>
    obtain ⟨k', v'⟩ := hd
    by_cases h : k' = k
    · simp [setKV, getS, h]
    · simp [setKV, getS, h, ih]

theorem take_min_length {α : Type} (l : List α) (b : Nat) :
    l.take (min b l.length) = l.take b := by
  rcases le_total b l.length with h | h
  · rw [min_eq_left h]
  · rw [min_eq_right h, List.take_length, List.take_of_length_le h]

theorem drop_min_length {α : Type} (l t : List α) (a : Nat)
    (ht : t.length ≤ l.length) : t.drop (min a l.length) = t.drop a := by
  rcases le_total a l.length with h | h
  · rw [min_eq_left h]
  · rw [min_eq_right h, List.drop_eq_nil_of_le ht,
        List.drop_eq_nil_of_le (le_trans ht h)]

theorem pySlice_eq_take_drop {α : Type} (l : List α) (a b : Int)
    (ha : 0 ≤ a) (hb : 0 ≤ b) :
    pySlice l a b = (l.take b.toNat).drop a.toNat := by
  simp only [pySlice, pySliceClamp, if_neg (not_lt.mpr ha), if_neg (not_lt.mpr hb)]
  rw [take_min_length, drop_min_length l _ _ (by simp)]

theorem natToBytesAux_ne_nil (fuel n : Nat) (h : 0 < fuel) :
    natToBytesAux fuel n ≠ [] := by
  cases fuel with
  | zero => omega
  | succ f =>
    rw [natToBytesAux]
    split <;> simp

theorem natToBytes_ne_nil (n : Nat) : natToBytes n ≠ [] :=
  natToBytesAux_ne_nil (n + 1) n (by omega)

theorem natToBytesAux_digits (fuel n : Nat) (h : n < fuel) :
    ∀ b ∈ natToBytesAux fuel n, isDigit b = true := by
  induction fuel generalizing n with
  | zero => omega
  | succ f ih =>
    rw [natToBytesAux]
    split
    · intro b hb
      simp only [List.mem_singleton] at hb
      subst hb
      simp only [isDigit, decide_eq_true_eq, Bool.and_eq_true]
      omega
    · intro b hb
      rcases List.mem_append.mp hb with h' | h'
      · have hd : n / 10 < f := by
          have := Nat.div_lt_self (show 0 < n by omega) (show (1 : Nat) < 10 by omega)
          omega
        exact ih (n / 10) hd b h'
      · simp only [List.mem_singleton] at h'
        subst h'
        simp only [isDigit, decide_eq_true_eq, Bool.and_eq_true]
        omega

theorem natToBytes_digits (n : Nat) : ∀ b ∈ natToBytes n, isDigit b = true :=
  natToBytesAux_digits (n + 1) n (by omega)

theorem digitsToNat_append_one (l : Bytes) (d : Nat) :
    digitsToNat (l ++ [d]) = 10 * digitsToNat l + (d - 48) := by
  simp [digitsToNat, List.foldl_append]

theorem digitsToNat_natToBytesAux (fuel n : Nat) (h : n < fuel) :
    digitsToNat (natToBytesAux fuel n) = n := by
  induction fuel generalizing n with
  | zero => omega
  | succ f ih =>
    rw [natToBytesAux]
    split
    · simp [digitsToNat]
    · have hd : n / 10 < f := by
        have := Nat.div_lt_self (show 0 < n by omega) (show (1 : Nat) < 10 by omega)
        omega
      rw [digitsToNat_append_one, ih (n / 10) hd]
      omega

theorem digitsToNat_natToBytes (n : Nat) : digitsToNat (natToBytes n) = n :=
  digitsToNat_natToBytesAux (n + 1) n (by omega)

theorem isWS_eq_false_of_isDigit (b : Nat) (h : isDigit b = true) :
    isWS b = false := by
  simp only [isDigit, decide_eq_true_eq, Bool.and_eq_true] at h
  simp only [isWS, Bool.or_eq_false_iff, decide_eq_false_iff_not]
  omega

theorem dropWhile_isWS_eq_self (s : Bytes) (h : ∀ b ∈ s, isWS b = false) :
    s.dropWhile isWS = s := by
  cases s with
  | nil => rfl
  | cons b t =>
    rw [List.dropWhile_cons, h b (by simp)]
    simp

theorem stripWS_of_digits (s : Bytes) (h : ∀ b ∈ s, isDigit b = true) :
    stripWS s = s := by
  unfold stripWS
  rw [dropWhile_isWS_eq_self s fun b hb => isWS_eq_false_of_isDigit b (h b hb),
      dropWhile_isWS_eq_self _ fun b hb =>
        isWS_eq_false_of_isDigit b (h b (List.mem_reverse.mp hb)),
      List.reverse_reverse]

theorem pyInt_of_digits (s : Bytes) (hne : s ≠ [])
    (h : ∀ b ∈ s, isDigit b = true) :
    pyInt s = some ((digitsToNat s : Nat) : Int) := by
  have hhead : s.headD 0 ≠ 43 ∧ s.headD 0 ≠ 45 := by
    cases s with
    | nil => exact absurd rfl hne
    | cons b t =>
      have := h b (by simp)
      simp only [isDigit, decide_eq_true_eq, Bool.and_eq_true] at this
      simp only [List.headD_cons]
      omega
  unfold pyInt
  rw [stripWS_of_digits s h, if_neg hne, if_neg hhead.1, if_neg hhead.2,
      if_pos (List.all_eq_true.mpr h)]

theorem pyInt_natToBytes (n : Nat) : pyInt (natToBytes n) = some (n : Int) := by
  rw [pyInt_of_digits _ (natToBytes_ne_nil n) (natToBytes_digits n),
      digitsToNat_natToBytes]

/-- C1: for every binary key `k` and value `v` (any byte sequences,
including NUL bytes and bytes ≥ 0x80), dispatching `[SET, k, v]` and then
`[GET, k]` against the same table replies `+OK` and then exactly the
length-prefixed binary string `v` (`$len(v)\r\n v \r\n`). -/
theorem c1_set_get_roundtrip (st : Storage) (k v : Bytes) :
    (cmd_handler bSET [bSET, k, v] st).2 = .ok okReply ∧
    (cmd_handler bGET [bGET, k] (cmd_handler bSET [bSET, k, v] st).1).2 =
      .ok ([36] ++ natToBytes v.length ++ [13, 10] ++ v ++ [13, 10]) := by
  refine ⟨rfl, ?_⟩
  show (cmd_handler bGET [bGET, k] (setKV st k v)).2 = _
  unfold cmd_handler
  rw [if_pos rfl]
  simp only [List.length_cons, List.length_nil, List.getD_cons_succ, List.getD_cons_zero]
  rw [if_pos (by omega), getS_setKV_self]
  rfl

/-- C2 (code evaluated at the failing input): a `SET` frame with fewer
than 3 arguments makes `cmd_handler` raise `IndexError` instead of
replying an Error, and the connection handler turns that into a crash of
the connection (here on the wire bytes of `SET k`). -/
theorem c2_set_underarity_raises (st : Storage) (k : Bytes) :
    cmd_handler bSET [bSET, k] st = (st, .error .indexError) ∧
    handleStep st [42, 50, 13, 10, 36, 51, 13, 10, 83, 69, 84, 13, 10,
                   36, 49, 13, 10, 107, 13, 10] = .crash st .indexError :=
  ⟨rfl, rfl⟩

/-- C3 (code evaluated at the failing input): the buffer
`*1\r\n$33\r\n<33 bytes a>\r\n` decodes whole as one frame of 44 bytes,
but its 7-byte prefix `*1\r\n$33` — an incomplete fragment — already
"decodes" with 6 bytes consumed and the garbage argument `1\r\n`
(because `data.find(b"\r\n")` returns `-1`, which then acts as a negative
slice index), so incremental decoding diverges from whole decoding. -/
theorem c3_fragment_decodes_differently :
    parse ([42, 49, 13, 10, 36, 51, 51, 13, 10] ++ List.replicate 33 97 ++ [13, 10]) =
      ([List.replicate 33 97], 44) ∧
    parse (([42, 49, 13, 10, 36, 51, 51, 13, 10] ++ List.replicate 33 97 ++ [13, 10]).take 7) =
      ([[49, 13, 10]], 6) ∧
    (6 : Int) ≠ 0 ∧ [[49, 13, 10]] ≠ [List.replicate 33 97] := by
  refine ⟨by decide, by decide, by decide, by decide⟩

/-- C4 (code evaluated at the failing input): with the table holding key
`k` bound to the empty value, `DEL k` removes the key (the table becomes
empty) yet replies the Integer 0, because the popped value `b""` is falsy
in `1 if storage.pop(k, None) else 0`. -/
theorem c4_del_present_key_counted_zero :
    (getS [([107], [])] [107]).isSome = true ∧
    cmd_handler bDEL [bDEL, [107]] [([107], [])] = ([], .ok (resp (.int 0))) :=
  ⟨rfl, rfl⟩

/-- C5 counterexample: the decoder's outcome on the malformed buffer
`*x\r\n` (non-decimal count field) is `([], 0)` — byte-for-byte the same
sentinel it returns for the merely-too-short buffer `*`, so the two
outcomes are not distinguishable. -/
theorem c5_no_distinct_failure_sentinel :
    parse [42, 120, 13, 10] = ([], 0) ∧ parse [42] = ([], 0) :=
  ⟨rfl, rfl⟩

theorem parse_cons42 (t : Bytes) :
    parse (42 :: t) =
      (match pyInt (pySlice (42 :: t) 1 (pyFind (42 :: t) [13, 10] 0)) with
       | none => ([], 0)
       | some count =>
         parseLoop (42 :: t) count.toNat [] (pyFind (42 :: t) [13, 10] 0 + 2)) := rfl

/-- C5 amended: a malformed numeric count field (here the non-decimal byte
`x`) makes the decoder return `([], 0)` whatever follows — the very same
outcome as an incomplete buffer such as `*` — so no distinct failure
sentinel exists. -/
theorem c5_amended_malformed_gives_incomplete_sentinel (rest : Bytes) :
    parse ([42, 120, 13, 10] ++ rest) = ([], 0) ∧ parse [42] = ([], 0) := by
  refine ⟨?_, rfl⟩
  show parse (42 :: 120 :: 13 :: 10 :: rest) = ([], 0)
  have hf : pyFind (42 :: 120 :: 13 :: 10 :: rest) [13, 10] 0 = 2 := by
    simp [pyFind, findFrom, List.isPrefixOf]
  have hs : pySlice (42 :: 120 :: 13 :: 10 :: rest) 1 2 = [120] := by
    rw [pySlice_eq_take_drop _ _ _ (by omega) (by omega)]
    rfl
  rw [parse_cons42, hf, hs]
  rfl

/-- C6 counterexample: dispatching the under-arity frame `[SET, k]` on the
empty table stores nothing (the table stays empty), raises `IndexError`,
and in particular does not reply the protocol Error the claim describes. -/
theorem c6_underarity_set_stores_nothing :
    (cmd_handler bSET [bSET, [107]] []).1 = [] ∧
    (cmd_handler bSET [bSET, [107]] []).2 = .error .indexError ∧
    (cmd_handler bSET [bSET, [107]] []).2 ≠ .ok errReply :=
  ⟨rfl, rfl, fun h => Except.noConfusion h⟩

/-- C6 amended: a `SET` frame with fewer than 3 arguments raises
`IndexError` before anything is written (the table is unchanged and no
reply is produced); a `SET` frame with at least 3 arguments stores
`args[2]` under key `args[1]` (subsequently retrievable) and replies OK. -/
theorem c6_amended_set_behaviour (st : Storage) (args : List Bytes) :
    (args.length ≤ 2 → cmd_handler bSET args st = (st, .error .indexError)) ∧
    (∀ k v rest2, args = bSET :: k :: v :: rest2 →
      cmd_handler bSET args st = (setKV st k v, .ok okReply) ∧
      getS (setKV st k v) k = some v) := by
  constructor
  · intro h
    unfold cmd_handler
    rw [if_neg (by decide), if_pos rfl, if_neg (by omega)]
  · rintro k v rest2 rfl
    refine ⟨?_, getS_setKV_self st k v⟩
    unfold cmd_handler
    rw [if_neg (by decide), if_pos rfl,
        if_pos (by simp only [List.length_cons]; omega)]
    rfl

theorem c6_amended_set_behaviour_witness :
    cmd_handler bSET [bSET, [107]] [] = ([], .error .indexError) ∧
    cmd_handler bSET [bSET, [107], [118]] [] = ([([107], [118])], .ok okReply) :=
  ⟨(c6_amended_set_behaviour [] [bSET, [107]]).1 (by decide),
   ((c6_amended_set_behaviour [] [bSET, [107], [118]]).2 [107] [118] [] rfl).1⟩

/-- C9: dispatching any command other than `SET` and `DEL` — `GET`,
`EXISTS`, `STRLEN`, `SCAN`, `PING`, `HELLO`, `CLUSTER` or anything
unrecognized, with any argument list — leaves the key-value table exactly
unchanged (also when the dispatch raises). -/
theorem c9_only_set_del_mutate (cmd : Bytes) (args : List Bytes) (st : Storage)
    (hset : cmd ≠ bSET) (hdel : cmd ≠ bDEL) :
    (cmd_handler cmd args st).1 = st := by
  unfold cmd_handler
  repeat' split
  all_goals first
    | rfl
    | (exact absurd (by assumption) hset)
    | (exact absurd (by assumption) hdel)

theorem c9_only_set_del_mutate_witness :
    (cmd_handler bGET [bGET, [107]] []).1 = [] :=
  c9_only_set_del_mutate bGET [bGET, [107]] [] (by decide) (by decide)

/-- C10: any buffer beginning with the zero-element frame `*0\r\n` decodes
to the empty argument list with exactly 4 bytes consumed, and one step of
the connection-handler loop replies the generic protocol Error, keeps the
table unchanged, and continues with exactly the remaining buffered bytes
(no stall, no crash). -/
theorem c10_zero_element_frame (st : Storage) (rest : Bytes) :
    parse ([42, 48, 13, 10] ++ rest) = ([], 4) ∧
    handleStep st ([42, 48, 13, 10] ++ rest) = .reply st errReply rest := by
  have hp : parse ([42, 48, 13, 10] ++ rest) = ([], 4) := by
    show parse (42 :: 48 :: 13 :: 10 :: rest) = ([], 4)
    have hf : pyFind (42 :: 48 :: 13 :: 10 :: rest) [13, 10] 0 = 2 := by
      simp [pyFind, findFrom, List.isPrefixOf]
    have hs : pySlice (42 :: 48 :: 13 :: 10 :: rest) 1 2 = [48] := by
      rw [pySlice_eq_take_drop _ _ _ (by omega) (by omega)]
      rfl
    rw [parse_cons42, hf, hs]
    rfl
  refine ⟨hp, ?_⟩
  have hb : pySlice ([42, 48, 13, 10] ++ rest) 4
      ((([42, 48, 13, 10] ++ rest).length : Nat) : Int) = rest := by
    rw [pySlice_eq_take_drop _ _ _ (by omega) (by omega), Int.toNat_natCast,
        List.take_length]
    rfl
  simp only [handleStep, hp, hb]
  norm_num

theorem splitOnStar_no_star (p : Bytes) (h : 42 ∉ p) : splitOnStar p = [p] := by
  induction p with
  | nil => rfl
  | cons b t ih =>
    have hb : b ≠ 42 := fun hb => h (hb ▸ List.mem_cons_self b t)
    have ht : 42 ∉ t := fun hm => h (List.mem_cons_of_mem b hm)
    rw [splitOnStar, if_neg hb, ih ht]

theorem pyReMatch_single (seg s : Bytes) :
    pyReMatch [seg] s = seg.isPrefixOf s := rfl

theorem pySlice_natCast {α : Type} (l : List α) (c n : Nat) :
    pySlice l (c : Int) ((c : Int) + (n : Int)) = (l.take (c + n)).drop c := by
  rw [pySlice_eq_take_drop _ _ _ (Int.natCast_nonneg c) (by positivity),
      ← Nat.cast_add, Int.toNat_natCast, Int.toNat_natCast]

theorem cmd_handler_scan_eval (st : Storage) (c n : Nat) (pat : Bytes)
    (hp : pat ≠ [42]) :
    cmd_handler bSCAN [bSCAN, natToBytes c, bMATCH, pat, bCOUNT, natToBytes n] st =
      (st, .ok (resp (.arr
        [.bulk (intToBytes
          (if (c : Int) + ((scanFiltered st c n pat).length : Int) ≥ (st.length : Int)
           then 0
           else (c : Int) + ((scanFiltered st c n pat).length : Int))),
         .arr ((scanFiltered st c n pat).map .bulk)]))) := by
  simp [cmd_handler, scanFiltered, scanWindow, pyInt_natToBytes, pySlice_natCast, hp,
        bGET, bSET, bDEL, bEXISTS, bSTRLEN, bSCAN, bMATCH, bCOUNT, upperAscii, upperByte]

/-- C7 counterexample: on the table with keys `a`, `b`, `c`, the frame
`SCAN 0 MATCH b COUNT 2` slices the window `[a, b]` (length 2, so the
claim's pre-filter rule gives new cursor 0 + 2 = 2, as 2 < 3), but the
code replies new cursor `"1"` — computed from the filtered key count 1 —
which differs from the reply the claim prescribes. -/
theorem c7_new_cursor_from_filtered_count :
    cmd_handler bSCAN [bSCAN, [48], bMATCH, [98], bCOUNT, [50]]
        [([97], [120]), ([98], [120]), ([99], [120])] =
      ([([97], [120]), ([98], [120]), ([99], [120])],
       .ok (resp (.arr [.bulk [49], .arr [.bulk [98]]]))) ∧
    pySlice (keysOf [([97], [120]), ([98], [120]), ([99], [120])]) 0 2 =
      [[97], [98]] ∧
    resp (.arr [.bulk [49], .arr [.bulk [98]]]) ≠
      resp (.arr [.bulk [50], .arr [.bulk [98]]]) :=
  ⟨rfl, rfl, by decide⟩

/-- C7 amended: for a SCAN frame with cursor, MATCH pattern and COUNT, the
replied new cursor is 0 if `cursor + (number of keys left after the MATCH
filter)` reaches or passes the table size, and otherwise that very sum —
i.e. it is computed from the post-filter key count, not from the
pre-filter slice length.  The pattern hypotheses scope the statement to
patterns and keys on which the embedded `re.match` model is faithful. -/
theorem c7_amended_cursor_formula (st : Storage) (c n : Nat) (pat : Bytes)
    (hp : pat ≠ [42])
    (hlit : ∀ b ∈ pat, b = 42 ∨ isRegexLiteral b = true)
    (hkeys : ∀ k ∈ keysOf st, ∀ b ∈ k, b < 128) :
    cmd_handler bSCAN [bSCAN, natToBytes c, bMATCH, pat, bCOUNT, natToBytes n] st =
      (st, .ok (resp (.arr
        [.bulk (intToBytes
          (if (c : Int) + ((scanFiltered st c n pat).length : Int) ≥ (st.length : Int)
           then 0
           else (c : Int) + ((scanFiltered st c n pat).length : Int))),
         .arr ((scanFiltered st c n pat).map .bulk)]))) :=
  cmd_handler_scan_eval st c n pat hp

theorem c7_amended_cursor_formula_witness :
    cmd_handler bSCAN [bSCAN, natToBytes 0, bMATCH, [98], bCOUNT, natToBytes 2]
        [([97], [120]), ([98], [120]), ([99], [120])] =
      ([([97], [120]), ([98], [120]), ([99], [120])],
       .ok (resp (.arr [.bulk (intToBytes 1), .arr [.bulk [98]]]))) := by
  have h := c7_amended_cursor_formula [([97], [120]), ([98], [120]), ([99], [120])]
    0 2 [98] (by decide) (by decide) (by decide)
  exact h

/-- C8 counterexample: the star-free pattern `a` matches the key `ab` —
`re.match` anchors only at the start, so the key is kept although it is
not equal to the pattern; the reply therefore contains `ab`, unlike the
empty key list the claim prescribes. -/
theorem c8_starless_pattern_matches_extensions :
    cmd_handler bSCAN [bSCAN, [48], bMATCH, [97]] [([97, 98], [120])] =
      ([([97, 98], [120])], .ok (resp (.arr [.bulk [48], .arr [.bulk [97, 98]]]))) ∧
    ([97, 98] : Bytes) ≠ [97] ∧
    resp (.arr [.bulk [48], .arr [.bulk [97, 98]]]) ≠
      resp (.arr [.bulk [48], .arr []]) :=
  ⟨rfl, by decide, by decide⟩

/-- C8 amended: a MATCH pattern is applied only to the already-sliced
window of keys, translated to a regular expression anchored at the start
(but not at the end): a pattern containing no `*` keeps exactly the keys
of the window having the pattern as a prefix (not only those equal to
it). -/
theorem c8_amended_window_and_anchoring (st : Storage) (c n : Nat) (pat : Bytes)
    (hstar : 42 ∉ pat)
    (hlit : ∀ b ∈ pat, isRegexLiteral b = true)
    (hkeys : ∀ k ∈ keysOf st, ∀ b ∈ k, b < 128) :
    cmd_handler bSCAN [bSCAN, natToBytes c, bMATCH, pat, bCOUNT, natToBytes n] st =
      (st, .ok (resp (.arr
        [.bulk (intToBytes
          (if (c : Int) +
                (((((keysOf st).take (c + n)).drop c).filter
                    fun k => pat.isPrefixOf k).length : Int) ≥ (st.length : Int)
           then 0
           else (c : Int) +
                (((((keysOf st).take (c + n)).drop c).filter
                    fun k => pat.isPrefixOf k).length : Int))),
         .arr (((((keysOf st).take (c + n)).drop c).filter
                  fun k => pat.isPrefixOf k).map .bulk)]))) := by
  have hp : pat ≠ [42] := fun h => hstar (h ▸ List.mem_cons_self 42 [])
  have hsplit : splitOnStar pat = [pat] := splitOnStar_no_star pat hstar
  rw [cmd_handler_scan_eval st c n pat hp]
  simp only [scanFiltered, scanWindow, hsplit, pyReMatch_single]

theorem c8_amended_window_and_anchoring_witness :
    cmd_handler bSCAN [bSCAN, natToBytes 0, bMATCH, [97], bCOUNT, natToBytes 10]
        [([97, 98], [120])] =
      ([([97, 98], [120])],
       .ok (resp (.arr [.bulk (intToBytes 0), .arr [.bulk [97, 98]]]))) := by
  have h := c8_amended_window_and_anchoring [([97, 98], [120])] 0 10 [97]
    (by decide) (by decide) (by decide)
  exact h

end RedisEmu
